import Mathlib

/-!
Verification of the `zatrano/form-builder` form Builder against its
specification.  The repository source provides the `Config` record and the
constructor `New` (builder.go); those are embedded directly.  The control
emitters (`Open`, `Text`, `Password`, `Select`, ...), the value resolver and
the attribute merger are exercised by the repository tests but their code is
not present, so they are modelled from the specification text, as noted on
each definition.
-/

namespace FormBuilder

/-- Embedded from src/builder.go: `Config` carries the data needed to build a
new `Builder`.  Go's `interface{}` model is abstracted as an association list
from form-tag name to string-converted field value (the only way the spec
reads the model); Go's nil maps for `OldInput`/`Errors` are represented by
`none`. -/
structure Config where
  Action : String
  Method : String
  CSRFToken : String
  CSRFField : String
  Model : List (String × String)
  OldInput : Option (List (String × List String))
  Errors : Option (List (String × String))
  Multipart : Bool

/-- Embedded from src/builder.go: the `Builder` state, one field per Go field. -/
structure Builder where
  model : List (String × String)
  oldInput : List (String × List String)
  errors : List (String × String)
  csrfToken : String
  csrfField : String
  action : String
  method : String
  isMultipart : Bool

/-- Embedded from src/builder.go `New`: fills in the defaults (`_csrf` for an
empty `CSRFField`, empty maps for nil `OldInput`/`Errors`) and stores the
remaining fields unchanged. -/
def New (config : Config) : Builder :=
  let oldInput := match config.OldInput with
    | some m => m
    | none => []
  let errors := match config.Errors with
    | some m => m
    | none => []
  let csrfField := if config.CSRFField = "" then "_csrf" else config.CSRFField
  { action := config.Action
    method := config.Method
    csrfToken := config.CSRFToken
    csrfField := csrfField
    model := config.Model
    oldInput := oldInput
    errors := errors
    isMultipart := config.Multipart }

/-- First-match association-list lookup (the Go map/url.Values lookup). -/
def assocLookup {α : Type} : List (String × α) → String → Option α
  | [], _ => none
  | (k, v) :: rest, key => if k = key then some v else assocLookup rest key

/-- Lookup with a default value. -/
def lookupD (l : List (String × String)) (k d : String) : String :=
  (assocLookup l k).getD d

/-- Whether an attribute list carries the given key. -/
def containsKey (l : List (String × String)) (k : String) : Bool :=
  l.any (fun kv => kv.1 == k)

/-- Modelled from the spec (§4.1, error handling): a field has an error when
`errors` holds a non-empty message for it. -/
def hasError (b : Builder) (name : String) : Bool :=
  match assocLookup b.errors name with
  | some msg => msg != ""
  | none => false

/-- Modelled from the spec (§4.1 Value Resolver, the code for it is not in
src): priority order old input (first entry of the list), then bound model,
then the explicit default, stopping at the first hit. -/
def resolveValue (b : Builder) (name dflt : String) : String :=
  match assocLookup b.oldInput name with
  | some vs => vs.headD ""
  | none =>
    match assocLookup b.model name with
    | some v => v
    | none => dflt

/-- Splits a class string into whitespace-separated tokens (accumulator holds
the current token reversed). -/
def splitTokensAux : List Char → List Char → List String
  | [], acc => if acc = [] then [] else [String.mk acc.reverse]
  | c :: rest, acc =>
    if c = ' ' then
      if acc = [] then splitTokensAux rest []
      else String.mk acc.reverse :: splitTokensAux rest []
    else splitTokensAux rest (c :: acc)

/-- Modelled from the spec (§4.2): `class` values are tokenized on whitespace. -/
def classTokens (s : String) : List String :=
  splitTokensAux s.toList []

/-- Keeps the first appearance of every token, dropping later duplicates. -/
def dedupFirst (seen : List String) : List String → List String
  | [] => []
  | x :: rest => if x ∈ seen then dedupFirst seen rest else x :: dedupFirst (x :: seen) rest

/-- Rejoins class tokens with single spaces. -/
def joinTokens : List String → String
  | [] => ""
  | [t] => t
  | t :: rest => t ++ " " ++ joinTokens rest

/-- Modelled from the spec (§4.2, the merger code is not in src): default and
caller class sets are tokenized, unioned preserving first-appearance order,
and `is-invalid` is appended after the merge when the field has an error,
never duplicated. -/
def mergeClass (dflt caller : String) (hasErr : Bool) : List String :=
  let merged := dedupFirst [] (classTokens dflt ++ classTokens caller)
  if hasErr then
    if "is-invalid" ∈ merged then merged else merged ++ ["is-invalid"]
  else merged

/-- Modelled from the spec (§4.2): caller keys override default keys; keys
only the caller supplies are appended after the defaults (a stable order, as
the spec allows the implementer to pick one). -/
def attrsOverride (dflt caller : List (String × String)) : List (String × String) :=
  dflt.map (fun kv =>
    match assocLookup caller kv.1 with
    | some v2 => (kv.1, v2)
    | none => kv)
  ++ caller.filter (fun kv => (assocLookup dflt kv.1).isNone)

/-- Modelled from the spec (§4.2 Attribute Merger, the code is not in src):
combine default and caller attributes, with `class` handled by token union
plus the error token; a class attribute is materialized whenever the merged
token list is non-empty. -/
def mergeAttrs (dflt caller : List (String × String)) (hasErr : Bool) : List (String × String) :=
  let cls := mergeClass (lookupD dflt "class" "") (lookupD caller "class" "") hasErr
  let base := attrsOverride dflt caller
  let base2 := base.map (fun kv => if kv.1 = "class" then (kv.1, joinTokens cls) else kv)
  if cls = [] then base
  else if containsKey base "class" then base2
  else base2 ++ [("class", joinTokens cls)]

/-- A hidden input emitted inside `Open`'s fragment. -/
structure HiddenInput where
  name : String
  value : String
deriving DecidableEq

/-- The structured content of the `Open` fragment: the form-tag attributes
followed by the hidden inputs. -/
structure OpenFrag where
  attrs : List (String × String)
  hidden : List HiddenInput
deriving DecidableEq

/-- Modelled from the spec (§3): the transport method is always `GET` or
`POST`; anything else is carried as `POST`. -/
def transportMethod (m : String) : String :=
  if m = "GET" ∨ m = "POST" then m else "POST"

/-- Modelled from the spec (§4.3 Open): a hidden `_method` input is emitted
exactly when the logical method is neither `GET` nor `POST`. -/
def spoofInputs (m : String) : List HiddenInput :=
  if m = "GET" ∨ m = "POST" then [] else [⟨"_method", m⟩]

/-- Modelled from the spec (§4.3 Open): a hidden CSRF input is emitted exactly
when `csrf_token` is non-empty. -/
def csrfInputs (b : Builder) : List HiddenInput :=
  if b.csrfToken = "" then [] else [⟨b.csrfField, b.csrfToken⟩]

/-- Modelled from the spec (§4.3 Open, the code is not in src): the form tag
carries `action`, the transport method, and `enctype` when multipart; the
`_method` spoof input comes first, then the CSRF input. -/
def Open (b : Builder) : OpenFrag :=
  { attrs := [("action", b.action), ("method", transportMethod b.method)]
      ++ (if b.isMultipart then [("enctype", "multipart/form-data")] else [])
    hidden := spoofInputs b.method ++ csrfInputs b }

/-- Modelled from the spec (§4.3, the code is not in src): the `Text` control,
a void input whose value comes from the resolver and whose default class is
`form-control`. -/
def Text (b : Builder) (name : String) (attrs : List (String × String)) : List (String × String) :=
  mergeAttrs [("type", "text"), ("name", name), ("value", resolveValue b name ""), ("class", "form-control")]
    attrs (hasError b name)

/-- Modelled from the spec (§4.3, the code is not in src): `Password` never
prefills from any source, its value attribute is always the empty string. -/
def Password (b : Builder) (name : String) (attrs : List (String × String)) : List (String × String) :=
  mergeAttrs [("type", "password"), ("name", name), ("value", ""), ("class", "form-control")]
    attrs (hasError b name)

/-- An option of a select control (source name `Option`, which Lean reserves):
a value, a display text and an optional group label. -/
structure SelectOption where
  value : String
  text : String
  group : String
deriving DecidableEq

/-- The structured content of a single-select fragment: merged attributes and
the options, each paired with its `selected` flag. -/
structure SelectFrag where
  attrs : List (String × String)
  options : List (SelectOption × Bool)
deriving DecidableEq

/-- Modelled from the spec (§4.3 Select): walk the options and mark `selected`
on the first one whose value equals the resolved value; once a match was seen
no later option is marked. -/
def markSelected (v : String) : Bool → List SelectOption → List (SelectOption × Bool)
  | _, [] => []
  | found, o :: rest =>
    if o.value = v then (o, !found) :: markSelected v true rest
    else (o, false) :: markSelected v found rest

/-- Modelled from the spec (§4.3 Select, the code is not in src): the single
select control; default class `form-select`, options marked against the
resolved value.  Grouped rendering (`optgroup`) is not modelled, the claims
concern ungrouped single selects. -/
def Select (b : Builder) (name : String) (opts : List SelectOption)
    (attrs : List (String × String)) : SelectFrag :=
  { attrs := mergeAttrs [("name", name), ("class", "form-select")] attrs (hasError b name)
    options := markSelected (resolveValue b name "") false opts }

/-- The structured content of a textarea fragment: merged attributes and the
element body (the resolved value, escaped at render time). -/
structure TextareaFrag where
  attrs : List (String × String)
  body : String
deriving DecidableEq

/-- Modelled from the spec (§4.3 Textarea, the code is not in src). -/
def Textarea (b : Builder) (name : String) (attrs : List (String × String)) : TextareaFrag :=
  { attrs := mergeAttrs [("name", name), ("class", "form-control")] attrs (hasError b name)
    body := resolveValue b name "" }

/-- The double-quote character (written by code point to keep literals plain). -/
def quoteChar : Char := Char.ofNat 34

/-- The single-quote character (written by code point to keep literals plain). -/
def aposChar : Char := Char.ofNat 39

/-- Modelled from the spec (§4.2): HTML-attribute escaping of one character,
covering at least the five mandated characters. -/
def escChar (c : Char) : List Char :=
  if c = '&' then ['&', 'a', 'm', 'p', ';']
  else if c = '<' then ['&', 'l', 't', ';']
  else if c = '>' then ['&', 'g', 't', ';']
  else if c = quoteChar then ['&', '#', '3', '4', ';']
  else if c = aposChar then ['&', '#', '3', '9', ';']
  else [c]

/-- Character-list escaping. -/
def escList : List Char → List Char
  | [] => []
  | c :: rest => escChar c ++ escList rest

/-- Modelled from the spec (§4.2): HTML-escape a whole string. -/
def escapeHTML (s : String) : String :=
  String.mk (escList s.toList)

/-- HTML-unescaping of a character list: the five entities produced by
`escChar` are folded back, anything else passes through. -/
def unescList : List Char → List Char
  | [] => []
  | c :: rest =>
    if c = '&' then
      if rest.take 4 = ['a', 'm', 'p', ';'] then '&' :: unescList (rest.drop 4)
      else if rest.take 3 = ['l', 't', ';'] then '<' :: unescList (rest.drop 3)
      else if rest.take 3 = ['g', 't', ';'] then '>' :: unescList (rest.drop 3)
      else if rest.take 4 = ['#', '3', '4', ';'] then quoteChar :: unescList (rest.drop 4)
      else if rest.take 4 = ['#', '3', '9', ';'] then aposChar :: unescList (rest.drop 4)
      else c :: unescList rest
    else c :: unescList rest
termination_by l => l.length
decreasing_by
  all_goals simp [List.length_drop, List.length_cons]
  all_goals omega

/-- HTML-unescape a whole string. -/
def unescapeHTML (s : String) : String :=
  String.mk (unescList s.toList)

/-- Renders one attribute as `key="escaped value"`. -/
def renderAttr (k v : String) : String :=
  k ++ "=\"" ++ escapeHTML v ++ "\""

/-- Renders an attribute list, one leading space per attribute. -/
def renderAttrs (l : List (String × String)) : String :=
  String.join (l.map (fun kv => " " ++ renderAttr kv.1 kv.2))

/-- Renders a void input from its final attribute list. -/
def renderInput (l : List (String × String)) : String :=
  "<input" ++ renderAttrs l ++ ">"

/-- Renders one hidden input of the `Open` fragment. -/
def renderHidden (h : HiddenInput) : String :=
  "<input" ++ renderAttrs [("type", "hidden"), ("name", h.name), ("value", h.value)] ++ ">"

/-- Renders the whole `Open` fragment: form tag, then the hidden inputs. -/
def renderOpen (b : Builder) : String :=
  "<form" ++ renderAttrs (Open b).attrs ++ ">"
    ++ String.join ((Open b).hidden.map renderHidden)

/-- Renders one option with its selected flag. -/
def renderOption (ob : SelectOption × Bool) : String :=
  "<option " ++ renderAttr "value" ob.1.value ++ (if ob.2 then " selected" else "") ++ ">"
    ++ escapeHTML ob.1.text ++ "</option>"

/-- Renders a select fragment. -/
def renderSelect (f : SelectFrag) : String :=
  "<select" ++ renderAttrs f.attrs ++ ">" ++ String.join (f.options.map renderOption) ++ "</select>"

/-- Renders a textarea fragment, the body HTML-escaped. -/
def renderTextarea (f : TextareaFrag) : String :=
  "<textarea" ++ renderAttrs f.attrs ++ ">" ++ escapeHTML f.body ++ "</textarea>"

/-- Counts the hidden inputs carrying the given name/value pair. -/
def countCsrf (l : List HiddenInput) (n v : String) : Nat :=
  (l.filter (fun h => h.name == n && h.value == v)).length

/-- Concrete config for the C1 witness: the repository test
`TestTextInputWithValueFromOldInput`. -/
def wCfg1 : Config :=
  ⟨"", "", "", "", [("name", "John Doe")], some [("name", ["Jane Doe"])], none, false⟩

/-- Concrete config for the C2 counterexample: the CSRF field name collides
with the `_method` spoof input. -/
def cexCfg2 : Config :=
  ⟨"/x", "PUT", "PUT", "_method", [], none, none, false⟩

/-- Concrete config for the C2 witness: spec scenario (a). -/
def wCfg2 : Config :=
  ⟨"/u/1", "PUT", "abc", "_csrf", [], none, none, false⟩

/-- Concrete config for the C3 counterexample: method `POST` but the CSRF
input is named `_method`. -/
def cexCfg3 : Config :=
  ⟨"/x", "POST", "tok", "_method", [], none, none, false⟩

/-- Concrete config for the C3 witness, multipart `POST` part: spec
scenario (f). -/
def wCfg3 : Config :=
  ⟨"/up", "POST", "", "", [], none, none, true⟩

/-- Concrete config for the C3 witness, spoofing part: logical method `PUT`. -/
def wCfg3b : Config :=
  ⟨"/u/1", "PUT", "", "", [], none, none, false⟩

/-- Concrete configs for the C4 witness: two bound models that disagree on the
`password` field. -/
def wCfg4 : Config :=
  ⟨"", "", "", "", [("password", "secret")], none, none, false⟩

/-- Second config for the C4 witness. -/
def wCfg4b : Config :=
  ⟨"", "", "", "", [("password", "other")], some [("password", ["third"])], none, false⟩

/-- Concrete config for the C5 witness: the repository test
`TestSelectWithOptions`. -/
def wCfg5 : Config :=
  ⟨"", "", "", "", [], some [("role", ["2"])], none, false⟩

/-- Concrete config for the C6 witness: the repository test
`TestTextInputWithError`. -/
def wCfg6 : Config :=
  ⟨"", "", "", "", [], none, some [("name", "Name is required")], false⟩

/-- Concrete config for the C8 witness. -/
def wCfg8 : Config :=
  ⟨"/c", "POST", "t", "_csrf", [("a", "b")], some [("a", ["c"])], some [("a", "bad")], false⟩

/-- Deep-equal copy of `wCfg8` for the C8 witness. -/
def wCfg8b : Config :=
  ⟨"/c", "POST", "t", "_csrf", [("a", "b")], some [("a", ["c"])], some [("a", "bad")], false⟩

/-- Concrete config for the C9 witness: empty CSRF field, nil maps. -/
def wCfg9 : Config :=
  ⟨"/a", "GET", "tok", "", [], none, none, false⟩

/-- Second config for the C9 witness: explicit CSRF field kept unchanged. -/
def wCfg9b : Config :=
  ⟨"/a", "GET", "tok", "custom", [], none, none, false⟩

/-- Evaluation of `Text` with no caller attributes: the merger yields the four
default attributes, with `is-invalid` appended to the class on error. -/
theorem Text_eval (b : Builder) (F : String) :
    Text b F [] = [("type", "text"), ("name", F), ("value", resolveValue b F ""),
      ("class", if hasError b F then "form-control is-invalid" else "form-control")] := by
  unfold Text
  cases h : hasError b F <;> rfl

/-- Evaluation of `Password` with no caller attributes. -/
theorem Password_eval (b : Builder) (F : String) :
    Password b F [] = [("type", "password"), ("name", F), ("value", ""),
      ("class", if hasError b F then "form-control is-invalid" else "form-control")] := by
  unfold Password
  cases h : hasError b F <;> rfl

/-- C1: when a field is present in both old input and the bound model with
different values, the value attribute rendered by the `Text` control is the
first entry of the old-input list; the model is consulted only when old input
has no entry for the field. -/
theorem text_value_from_old_input (b : Builder) (F : String) :
    (∀ v₁ vs v₂, assocLookup b.oldInput F = some (v₁ :: vs) →
      assocLookup b.model F = some v₂ → v₁ ≠ v₂ →
      assocLookup (Text b F []) "value" = some v₁)
    ∧ (∀ v₂, assocLookup b.oldInput F = none → assocLookup b.model F = some v₂ →
      assocLookup (Text b F []) "value" = some v₂) := by
  constructor
  · intro v₁ vs v₂ h1 h2 hne
    rw [Text_eval]
    show some (resolveValue b F "") = some v₁
    simp [resolveValue, h1]
  · intro v₂ h1 h2
    rw [Text_eval]
    show some (resolveValue b F "") = some v₂
    simp [resolveValue, h1, h2]

/-- C1 witness: the scenario of `TestTextInputWithValueFromOldInput`. -/
theorem text_value_from_old_input_witness :
    assocLookup (Text (New wCfg1) "name" []) "value" = some "Jane Doe" :=
  (text_value_from_old_input (New wCfg1) "name").1 "Jane Doe" [] "John Doe"
    (by decide) (by decide) (by decide)

/-- C4: `Password` renders an empty value attribute regardless of old input
and bound model, and its whole fragment depends on the builder only through
the error map. -/
theorem password_never_prefills (b : Builder) (F : String) :
    assocLookup (Password b F []) "value" = some ""
    ∧ ∀ (b₂ : Builder) (attrs : List (String × String)),
        b.errors = b₂.errors → Password b F attrs = Password b₂ F attrs := by
  constructor
  · rw [Password_eval]
    rfl
  · intro b₂ attrs h
    unfold Password
    have he : hasError b F = hasError b₂ F := by
      unfold hasError
      rw [h]
    rw [he]

/-- C4 witness: two builders that disagree on the resolved value for
`password` produce the identical `Password` fragment, with empty value. -/
theorem password_never_prefills_witness :
    assocLookup (Password (New wCfg4) "password" []) "value" = some ""
    ∧ Password (New wCfg4) "password" [] = Password (New wCfg4b) "password" [] := by
  have t := password_never_prefills (New wCfg4) "password"
  exact ⟨t.1, t.2 (New wCfg4b) [] (by decide)⟩

/-- The method-spoof inputs never match the CSRF name/value pair, given that
the configuration does not make the CSRF input collide with the spoof input. -/
theorem spoof_filter_csrf_eq_nil (b : Builder)
    (hnc : ¬ (b.csrfField = "_method" ∧ b.csrfToken = b.method
      ∧ ¬ (b.method = "GET" ∨ b.method = "POST"))) :
    (spoofInputs b.method).filter
      (fun h => h.name == b.csrfField && h.value == b.csrfToken) = [] := by
  unfold spoofInputs
  by_cases hgp : b.method = "GET" ∨ b.method = "POST"
  · rw [if_pos hgp]
    rfl
  · rw [if_neg hgp]
    have hne2 : ¬ ("_method" = b.csrfField ∧ b.method = b.csrfToken) := by
      rintro ⟨hf, hv⟩
      exact hnc ⟨hf.symm, hv.symm, hgp⟩
    simp [List.filter_cons, hne2]

/-- C2 (amended): unless the CSRF input coincides with the `_method` spoof
input (csrf field named `_method` with the token equal to a spoofed logical
method), `Open` emits exactly one hidden input carrying the CSRF field name
and token when the token is non-empty, and none when the token is empty. -/
theorem open_csrf_emission (b : Builder)
    (hnc : ¬ (b.csrfField = "_method" ∧ b.csrfToken = b.method
      ∧ ¬ (b.method = "GET" ∨ b.method = "POST"))) :
    (b.csrfToken ≠ "" → countCsrf (Open b).hidden b.csrfField b.csrfToken = 1)
    ∧ (b.csrfToken = "" → countCsrf (Open b).hidden b.csrfField b.csrfToken = 0) := by
  have hsplit : (Open b).hidden = spoofInputs b.method ++ csrfInputs b := rfl
  have hs := spoof_filter_csrf_eq_nil b hnc
  constructor
  · intro ht
    unfold countCsrf
    rw [hsplit, List.filter_append, List.length_append, hs]
    unfold csrfInputs
    rw [if_neg ht]
    simp [List.filter_cons]
  · intro ht
    unfold countCsrf
    rw [hsplit, List.filter_append, List.length_append, hs]
    unfold csrfInputs
    rw [if_pos ht]
    rfl

/-- C2 counterexample: with csrf field `_method`, token `PUT` and logical
method `PUT`, the fragment contains two hidden inputs matching the CSRF
name/value pair, so the claimed "exactly one" fails as stated. -/
theorem open_csrf_exactly_one_cex :
    (New cexCfg2).csrfToken ≠ ""
    ∧ countCsrf (Open (New cexCfg2)).hidden (New cexCfg2).csrfField
        (New cexCfg2).csrfToken = 2 := by
  decide

/-- C2 witness: spec scenario (a), one CSRF hidden input `_csrf`/`abc`. -/
theorem open_csrf_emission_witness :
    countCsrf (Open (New wCfg2)).hidden (New wCfg2).csrfField (New wCfg2).csrfToken = 1 := by
  have t := open_csrf_emission (New wCfg2) (by decide)
  exact t.1 (by decide)

/-- C3 (amended): the form tag's method attribute is always `GET` or `POST`;
a hidden `_method` input carrying the logical method is present whenever the
logical method is neither `GET` nor `POST`; and for `GET`/`POST` no hidden
input named `_method` appears, provided the CSRF input is not itself named
`_method` (csrf field `_method` with a non-empty token). -/
theorem open_method_emission (b : Builder) :
    (assocLookup (Open b).attrs "method" = some "GET"
      ∨ assocLookup (Open b).attrs "method" = some "POST")
    ∧ (¬ (b.method = "GET" ∨ b.method = "POST") →
        (⟨"_method", b.method⟩ : HiddenInput) ∈ (Open b).hidden)
    ∧ ((b.method = "GET" ∨ b.method = "POST") →
        (b.csrfField = "_method" → b.csrfToken = "") →
        ∀ h ∈ (Open b).hidden, h.name ≠ "_method") := by
  refine ⟨?_, ?_, ?_⟩
  · have hm : assocLookup (Open b).attrs "method" = some (transportMethod b.method) := rfl
    rw [hm]
    unfold transportMethod
    by_cases hgp : b.method = "GET" ∨ b.method = "POST"
    · rw [if_pos hgp]
      rcases hgp with h | h
      · exact Or.inl (by rw [h])
      · exact Or.inr (by rw [h])
    · rw [if_neg hgp]
      exact Or.inr rfl
  · intro hgp
    show _ ∈ spoofInputs b.method ++ csrfInputs b
    unfold spoofInputs
    rw [if_neg hgp]
    exact List.mem_append_left _ (List.mem_singleton_self _)
  · intro hgp hcf h hmem
    have hs : spoofInputs b.method = [] := by
      unfold spoofInputs
      rw [if_pos hgp]
    have hmem2 : h ∈ csrfInputs b := by
      have hsplit : (Open b).hidden = spoofInputs b.method ++ csrfInputs b := rfl
      rw [hsplit, hs] at hmem
      simpa using hmem
    unfold csrfInputs at hmem2
    by_cases ht : b.csrfToken = ""
    · rw [if_pos ht] at hmem2
      exact absurd hmem2 (List.not_mem_nil _)
    · rw [if_neg ht] at hmem2
      have heq : h = ⟨b.csrfField, b.csrfToken⟩ := by simpa using hmem2
      rw [heq]
      intro hn
      exact ht (hcf hn)

/-- C3 counterexample: with method `POST` but a CSRF field named `_method`,
the fragment does contain a hidden input named `_method`, so the claimed
"no `_method` input for GET/POST" fails as stated. -/
theorem open_method_no_spoof_cex :
    (New cexCfg3).method = "POST"
    ∧ ∃ h ∈ (Open (New cexCfg3)).hidden, h.name = "_method" := by
  decide

/-- C3 witness: a multipart `POST` form has a `POST` method attribute and no
`_method` input (spec scenario (f)), and a `PUT` form carries the spoof input
`_method`/`PUT` (spec scenario (a)). -/
theorem open_method_emission_witness :
    (assocLookup (Open (New wCfg3)).attrs "method" = some "GET"
      ∨ assocLookup (Open (New wCfg3)).attrs "method" = some "POST")
    ∧ (∀ h ∈ (Open (New wCfg3)).hidden, h.name ≠ "_method")
    ∧ (⟨"_method", "PUT"⟩ : HiddenInput) ∈ (Open (New wCfg3b)).hidden := by
  have t := open_method_emission (New wCfg3)
  have t2 := open_method_emission (New wCfg3b)
  refine ⟨t.1, t.2.2 (Or.inr rfl) (fun _ => rfl), ?_⟩
  exact t2.2.1 (by decide)

/-- Once a match was found, `markSelected` marks nothing further. -/
theorem markSelected_true_map (v : String) (l : List SelectOption) :
    markSelected v true l = l.map (fun o => (o, false)) := by
  induction l with
  | nil => rfl
  | cons o rest ih =>
    by_cases h : o.value = v
    · simp [markSelected, h, ih]
    · simp [markSelected, h, ih]

/-- Unmarked options contribute nothing to the selected filter. -/
theorem filter_snd_map_false (l : List SelectOption) :
    (l.map (fun o => (o, false))).filter Prod.snd = [] := by
  induction l with
  | nil => rfl
  | cons o r ih => simp [ih]

/-- The selected flags of unmarked options are all `false`. -/
theorem map_pair_false_snd (l : List SelectOption) :
    (l.map (fun p => (p, false))).map Prod.snd = List.replicate l.length false := by
  induction l with
  | nil => rfl
  | cons o r ih => simp [ih, List.replicate_succ]

/-- `markSelected` marks at most one option, whatever the initial flag. -/
theorem markSelected_filter_le_one (v : String) (l : List SelectOption) :
    ∀ found, ((markSelected v found l).filter Prod.snd).length ≤ 1 := by
  induction l with
  | nil =>
    intro found
    simp [markSelected]
  | cons o rest ih =>
    intro found
    by_cases h : o.value = v
    · cases found with
      | false =>
        simp [markSelected, h, List.filter_cons, markSelected_true_map, filter_snd_map_false]
      | true =>
        simp [markSelected, h, List.filter_cons, markSelected_true_map, filter_snd_map_false]
    · simp only [markSelected, if_neg h, List.filter_cons]
      simpa using ih found

/-- Splitting a marking run at the first matching option: everything before
it (no matches) and everything after it is unmarked. -/
theorem markSelected_split (v : String) (pre post : List SelectOption) (o : SelectOption)
    (hpre : ∀ p ∈ pre, p.value ≠ v) (ho : o.value = v) :
    markSelected v false (pre ++ o :: post)
      = pre.map (fun p => (p, false)) ++ (o, true) :: post.map (fun p => (p, false)) := by
  induction pre with
  | nil =>
    simp [markSelected, ho, markSelected_true_map]
  | cons p rest ih =>
    have hp : p.value ≠ v := hpre p (List.mem_cons_self p rest)
    have ih2 := ih (fun q hq => hpre q (List.mem_cons_of_mem p hq))
    simp [markSelected, hp, ih2]

/-- C5: in a single-select fragment at most one option carries `selected`,
and when the option list splits as prefix (no value match), first matching
option, suffix, the `selected` flags are false on the prefix, true on that
option, and false on the whole suffix (later equal values included). -/
theorem select_single_selection (b : Builder) (name : String) :
    (∀ opts attrs, (((Select b name opts attrs).options).filter Prod.snd).length ≤ 1)
    ∧ (∀ (pre post : List SelectOption) (o : SelectOption) (attrs : List (String × String)),
        (∀ p ∈ pre, p.value ≠ resolveValue b name "") →
        o.value = resolveValue b name "" →
        ((Select b name (pre ++ o :: post) attrs).options).map Prod.snd
          = List.replicate pre.length false ++ true :: List.replicate post.length false) := by
  constructor
  · intro opts attrs
    exact markSelected_filter_le_one (resolveValue b name "") opts false
  · intro pre post o attrs hpre ho
    show (markSelected (resolveValue b name "") false (pre ++ o :: post)).map Prod.snd = _
    rw [markSelected_split _ _ _ _ hpre ho]
    simp only [List.map_append, List.map_cons, map_pair_false_snd]

/-- C5 witness: the scenario of `TestSelectWithOptions`, option `2`/`User`
selected, option `1`/`Admin` not. -/
theorem select_single_selection_witness :
    ((Select (New wCfg5) "role"
        ([⟨"1", "Admin", ""⟩] ++ (⟨"2", "User", ""⟩ : SelectOption) :: []) []).options).map Prod.snd
      = List.replicate 1 false ++ true :: List.replicate 0 false := by
  have t := select_single_selection (New wCfg5) "role"
  exact t.2 [⟨"1", "Admin", ""⟩] [] ⟨"2", "User", ""⟩ [] (by decide) (by decide)

/-- Token count after first-appearance deduplication: one when the token
occurs and is not suppressed by `seen`, zero otherwise. -/
theorem count_dedupFirst (x : String) (l : List String) :
    ∀ seen, (dedupFirst seen l).count x = if x ∈ seen then 0 else if x ∈ l then 1 else 0 := by
  induction l with
  | nil =>
    intro seen
    simp [dedupFirst]
  | cons y t ih =>
    intro seen
    by_cases hy : y ∈ seen
    · rw [show dedupFirst seen (y :: t) = dedupFirst seen t from by simp [dedupFirst, hy]]
      rw [ih seen]
      by_cases hx : x ∈ seen
      · simp [hx]
      · by_cases hxy : x = y
        · subst hxy
          exact absurd hy hx
        · simp [hx, List.mem_cons, hxy]
    · rw [show dedupFirst seen (y :: t) = y :: dedupFirst (y :: seen) t from by
        simp [dedupFirst, hy]]
      rw [List.count_cons]
      rw [ih (y :: seen)]
      by_cases hxy : x = y
      · subst hxy
        simp [hy, List.mem_cons]
      · by_cases hxs : x ∈ seen
        · simp [hxs, hxy, List.mem_cons, Ne.symm hxy]
        · simp [hxs, hxy, List.mem_cons, Ne.symm hxy]

/-- Membership is preserved by first-appearance deduplication. -/
theorem mem_dedupFirst_nil (x : String) (l : List String) :
    x ∈ dedupFirst [] l ↔ x ∈ l := by
  constructor
  · intro h
    by_contra hn
    have hc := count_dedupFirst x l []
    simp [hn] at hc
    rw [List.count_eq_zero] at hc
    exact hc h
  · intro h
    have hc := count_dedupFirst x l []
    simp [h] at hc
    by_contra hn
    have h0 := List.count_eq_zero.mpr hn
    rw [hc] at h0
    exact absurd h0 one_ne_zero

/-- With an error present, the merged class list carries `is-invalid` exactly
once, whatever the default and caller class strings contain. -/
theorem count_mergeClass_err (dflt caller : String) :
    (mergeClass dflt caller true).count "is-invalid" = 1 := by
  have hbody : mergeClass dflt caller true
      = (if "is-invalid" ∈ dedupFirst [] (classTokens dflt ++ classTokens caller)
         then dedupFirst [] (classTokens dflt ++ classTokens caller)
         else dedupFirst [] (classTokens dflt ++ classTokens caller) ++ ["is-invalid"]) := rfl
  rw [hbody]
  by_cases hm : "is-invalid" ∈ dedupFirst [] (classTokens dflt ++ classTokens caller)
  · rw [if_pos hm]
    rw [count_dedupFirst]
    have hin : "is-invalid" ∈ classTokens dflt ++ classTokens caller :=
      (mem_dedupFirst_nil _ _).mp hm
    simp [hin]
  · rw [if_neg hm]
    rw [List.count_append, count_dedupFirst]
    have hout : "is-invalid" ∉ classTokens dflt ++ classTokens caller :=
      fun h => hm ((mem_dedupFirst_nil _ _).mpr h)
    simp [hout]

/-- Without an error and with `is-invalid` absent from both class strings,
the merged class list does not carry `is-invalid`. -/
theorem count_mergeClass_noerr (dflt caller : String)
    (h1 : (classTokens dflt).count "is-invalid" = 0)
    (h2 : (classTokens caller).count "is-invalid" = 0) :
    (mergeClass dflt caller false).count "is-invalid" = 0 := by
  have hbody : mergeClass dflt caller false
      = dedupFirst [] (classTokens dflt ++ classTokens caller) := rfl
  rw [hbody, count_dedupFirst]
  have hn : "is-invalid" ∉ classTokens dflt ++ classTokens caller := by
    rw [List.mem_append]
    rintro (h | h)
    · exact (List.count_eq_zero.mp h1) h
    · exact (List.count_eq_zero.mp h2) h
  simp [hn]

/-- A non-empty error entry makes `hasError` true. -/
theorem hasError_true_of (b : Builder) (F msg : String)
    (hm : assocLookup b.errors F = some msg) (hne : msg ≠ "") : hasError b F = true := by
  unfold hasError
  rw [hm]
  rw [show ((msg != "") = true) ↔ msg ≠ "" from bne_iff_ne]
  exact hne

/-- Without a non-empty error entry, `hasError` is false. -/
theorem hasError_false_of (b : Builder) (F : String)
    (h : ∀ msg, assocLookup b.errors F = some msg → msg = "") : hasError b F = false := by
  unfold hasError
  cases hm : assocLookup b.errors F with
  | none => rfl
  | some msg =>
    have he := h msg hm
    subst he
    rfl

/-- Evaluation of the `Select` attributes with no caller attributes. -/
theorem Select_attrs_eval (b : Builder) (F : String) (opts : List SelectOption) :
    (Select b F opts []).attrs = [("name", F),
      ("class", if hasError b F then "form-select is-invalid" else "form-select")] := by
  unfold Select
  cases h : hasError b F <;> rfl

/-- C6: when `errors[F]` is a non-empty string, the merged class token list
used by every control carries `is-invalid` exactly once (for any default and
caller classes, never duplicated); without such an entry, and with
`is-invalid` not supplied by either class string, the token is absent.  The
`Text` and `Select` fragments expose exactly this merged class attribute. -/
theorem error_class_once (b : Builder) (F : String) :
    (∀ dflt caller, (∃ msg, assocLookup b.errors F = some msg ∧ msg ≠ "") →
      (mergeClass dflt caller (hasError b F)).count "is-invalid" = 1)
    ∧ (∀ dflt caller, (∀ msg, assocLookup b.errors F = some msg → msg = "") →
      (classTokens dflt).count "is-invalid" = 0 →
      (classTokens caller).count "is-invalid" = 0 →
      (mergeClass dflt caller (hasError b F)).count "is-invalid" = 0)
    ∧ assocLookup (Text b F []) "class"
        = some (joinTokens (mergeClass "form-control" "" (hasError b F)))
    ∧ (∀ opts, assocLookup (Select b F opts []).attrs "class"
        = some (joinTokens (mergeClass "form-select" "" (hasError b F)))) := by
  refine ⟨?_, ?_, ?_, ?_⟩
  · rintro dflt caller ⟨msg, hm, hne⟩
    rw [hasError_true_of b F msg hm hne]
    exact count_mergeClass_err dflt caller
  · intro dflt caller h h1 h2
    rw [hasError_false_of b F h]
    exact count_mergeClass_noerr dflt caller h1 h2
  · rw [Text_eval]
    cases h : hasError b F <;> rfl
  · intro opts
    rw [Select_attrs_eval]
    cases h : hasError b F <;> rfl

/-- C6 witness: the scenario of `TestTextInputWithError`, class
`form-control is-invalid` with the error token appearing once. -/
theorem error_class_once_witness :
    (mergeClass "form-control" "" (hasError (New wCfg6) "name")).count "is-invalid" = 1
    ∧ assocLookup (Text (New wCfg6) "name" []) "class" = some "form-control is-invalid" := by
  have t := error_class_once (New wCfg6) "name"
  refine ⟨t.1 "form-control" "" ⟨"Name is required", by decide, by decide⟩, ?_⟩
  have h := t.2.2.1
  rw [h]
  decide

/-- One-step unfolding of `unescList` on the empty list. -/
theorem unescList_nil : unescList [] = [] := by
  rw [unescList.eq_def]

/-- One-step unfolding of `unescList` on a cons cell. -/
theorem unescList_cons (c : Char) (rest : List Char) :
    unescList (c :: rest) =
      if c = '&' then
        if rest.take 4 = ['a', 'm', 'p', ';'] then '&' :: unescList (rest.drop 4)
        else if rest.take 3 = ['l', 't', ';'] then '<' :: unescList (rest.drop 3)
        else if rest.take 3 = ['g', 't', ';'] then '>' :: unescList (rest.drop 3)
        else if rest.take 4 = ['#', '3', '4', ';'] then quoteChar :: unescList (rest.drop 4)
        else if rest.take 4 = ['#', '3', '9', ';'] then aposChar :: unescList (rest.drop 4)
        else c :: unescList rest
      else c :: unescList rest := by
  rw [unescList.eq_def]

/-- Unescaping consumes exactly one escaped character from the front: the
entity produced by `escChar` folds back to the original character and the
tail is unescaped independently. -/
theorem unesc_esc_cons (c : Char) (E : List Char) :
    unescList (escChar c ++ E) = c :: unescList E := by
  by_cases h1 : c = '&'
  · subst h1
    have e1 : escChar '&' ++ E = '&' :: 'a' :: 'm' :: 'p' :: ';' :: E := rfl
    rw [e1, unescList_cons]
    rw [if_pos (show ('&' : Char) = '&' from rfl)]
    rw [if_pos (show ('a' :: 'm' :: 'p' :: ';' :: E).take 4 = ['a', 'm', 'p', ';'] from rfl)]
    rfl
  · by_cases h2 : c = '<'
    · subst h2
      have e1 : escChar '<' ++ E = '&' :: 'l' :: 't' :: ';' :: E := rfl
      rw [e1, unescList_cons]
      rw [if_pos (show ('&' : Char) = '&' from rfl)]
      have hA : ¬ ('l' :: 't' :: ';' :: E).take 4 = ['a', 'm', 'p', ';'] := by
        intro h
        have h2b : ('l' : Char) :: 't' :: ';' :: E.take 1 = ['a', 'm', 'p', ';'] := h
        injection h2b with ha _
        exact absurd ha (by decide)
      rw [if_neg hA]
      rw [if_pos (show ('l' :: 't' :: ';' :: E).take 3 = ['l', 't', ';'] from rfl)]
      rfl
    · by_cases h3 : c = '>'
      · subst h3
        have e1 : escChar '>' ++ E = '&' :: 'g' :: 't' :: ';' :: E := rfl
        rw [e1, unescList_cons]
        rw [if_pos (show ('&' : Char) = '&' from rfl)]
        have hA : ¬ ('g' :: 't' :: ';' :: E).take 4 = ['a', 'm', 'p', ';'] := by
          intro h
          have h2b : ('g' : Char) :: 't' :: ';' :: E.take 1 = ['a', 'm', 'p', ';'] := h
          injection h2b with ha _
          exact absurd ha (by decide)
        rw [if_neg hA]
        rw [if_neg (show ¬ ('g' :: 't' :: ';' :: E).take 3 = ['l', 't', ';'] from fun h =>
          absurd (show (['g', 't', ';'] : List Char) = ['l', 't', ';'] from h) (by decide))]
        rw [if_pos (show ('g' :: 't' :: ';' :: E).take 3 = ['g', 't', ';'] from rfl)]
        rfl
      · by_cases h4 : c = quoteChar
        · subst h4
          have e1 : escChar quoteChar ++ E = '&' :: '#' :: '3' :: '4' :: ';' :: E := rfl
          rw [e1, unescList_cons]
          rw [if_pos (show ('&' : Char) = '&' from rfl)]
          rw [if_neg (show ¬ ('#' :: '3' :: '4' :: ';' :: E).take 4 = ['a', 'm', 'p', ';'] from fun h =>
            absurd (show (['#', '3', '4', ';'] : List Char) = ['a', 'm', 'p', ';'] from h) (by decide))]
          rw [if_neg (show ¬ ('#' :: '3' :: '4' :: ';' :: E).take 3 = ['l', 't', ';'] from fun h =>
            absurd (show (['#', '3', '4'] : List Char) = ['l', 't', ';'] from h) (by decide))]
          rw [if_neg (show ¬ ('#' :: '3' :: '4' :: ';' :: E).take 3 = ['g', 't', ';'] from fun h =>
            absurd (show (['#', '3', '4'] : List Char) = ['g', 't', ';'] from h) (by decide))]
          rw [if_pos (show ('#' :: '3' :: '4' :: ';' :: E).take 4 = ['#', '3', '4', ';'] from rfl)]
          rfl
        · by_cases h5 : c = aposChar
          · subst h5
            have e1 : escChar aposChar ++ E = '&' :: '#' :: '3' :: '9' :: ';' :: E := rfl
            rw [e1, unescList_cons]
            rw [if_pos (show ('&' : Char) = '&' from rfl)]
            rw [if_neg (show ¬ ('#' :: '3' :: '9' :: ';' :: E).take 4 = ['a', 'm', 'p', ';'] from fun h =>
              absurd (show (['#', '3', '9', ';'] : List Char) = ['a', 'm', 'p', ';'] from h) (by decide))]
            rw [if_neg (show ¬ ('#' :: '3' :: '9' :: ';' :: E).take 3 = ['l', 't', ';'] from fun h =>
              absurd (show (['#', '3', '9'] : List Char) = ['l', 't', ';'] from h) (by decide))]
            rw [if_neg (show ¬ ('#' :: '3' :: '9' :: ';' :: E).take 3 = ['g', 't', ';'] from fun h =>
              absurd (show (['#', '3', '9'] : List Char) = ['g', 't', ';'] from h) (by decide))]
            rw [if_neg (show ¬ ('#' :: '3' :: '9' :: ';' :: E).take 4 = ['#', '3', '4', ';'] from fun h =>
              absurd (show (['#', '3', '9', ';'] : List Char) = ['#', '3', '4', ';'] from h) (by decide))]
            rw [if_pos (show ('#' :: '3' :: '9' :: ';' :: E).take 4 = ['#', '3', '9', ';'] from rfl)]
            rfl
          · have e1 : escChar c ++ E = c :: E := by
              unfold escChar
              rw [if_neg h1, if_neg h2, if_neg h3, if_neg h4, if_neg h5]
              rfl
            rw [e1, unescList_cons]
            rw [if_neg h1]

/-- The escaping of a character list round-trips through unescaping. -/
theorem unescList_escList (l : List Char) : unescList (escList l) = l := by
  induction l with
  | nil =>
    have h0 : escList ([] : List Char) = [] := rfl
    rw [h0, unescList_nil]
  | cons c t ih =>
    have h0 : escList (c :: t) = escChar c ++ escList t := rfl
    rw [h0, unesc_esc_cons, ih]

/-- C7: HTML escaping covers the five mandated characters and round-trips
(unescaping an escaped string restores it), every rendered attribute value
passes through `escapeHTML`, and the textarea body is escaped in element-body
position. -/
theorem escape_roundtrip :
    (∀ s : String, unescapeHTML (escapeHTML s) = s)
    ∧ (∀ k v : String, renderAttr k v = k ++ "=\"" ++ escapeHTML v ++ "\"")
    ∧ (∀ f : TextareaFrag, renderTextarea f
        = "<textarea" ++ renderAttrs f.attrs ++ ">" ++ escapeHTML f.body ++ "</textarea>") := by
  refine ⟨?_, fun k v => rfl, fun f => rfl⟩
  intro s
  show String.mk (unescList (String.mk (escList s.toList)).toList) = s
  have h1 : (String.mk (escList s.toList)).toList = escList s.toList := rfl
  rw [h1, unescList_escList]
  cases s
  rfl

/-- C8: builders built from deep-equal configs render byte-identical
fragments for `Open`, `Text`, `Password` and `Select`, and repeating a call
on one builder yields identical output. -/
theorem config_determinism (c₁ c₂ : Config)
    (h1 : c₁.Action = c₂.Action) (h2 : c₁.Method = c₂.Method)
    (h3 : c₁.CSRFToken = c₂.CSRFToken) (h4 : c₁.CSRFField = c₂.CSRFField)
    (h5 : c₁.Model = c₂.Model) (h6 : c₁.OldInput = c₂.OldInput)
    (h7 : c₁.Errors = c₂.Errors) (h8 : c₁.Multipart = c₂.Multipart) :
    renderOpen (New c₁) = renderOpen (New c₂)
    ∧ (∀ n attrs, renderInput (Text (New c₁) n attrs) = renderInput (Text (New c₂) n attrs))
    ∧ (∀ n attrs, renderInput (Password (New c₁) n attrs) = renderInput (Password (New c₂) n attrs))
    ∧ (∀ n opts attrs,
        renderSelect (Select (New c₁) n opts attrs) = renderSelect (Select (New c₂) n opts attrs))
    ∧ (∀ n attrs, renderInput (Text (New c₁) n attrs) = renderInput (Text (New c₁) n attrs)) := by
  have hc : c₁ = c₂ := by
    cases c₁
    cases c₂
    simp_all
  subst hc
  exact ⟨rfl, fun _ _ => rfl, fun _ _ => rfl, fun _ _ _ => rfl, fun _ _ => rfl⟩

/-- C8 witness: two deep-equal concrete configs render the same `Open`
fragment. -/
theorem config_determinism_witness :
    renderOpen (New wCfg8) = renderOpen (New wCfg8b) := by
  have t := config_determinism wCfg8 wCfg8b rfl rfl rfl rfl rfl rfl rfl rfl
  exact t.1

/-- C9: `New` fills in the defaults: `_csrf` for an empty CSRF field name
(keeping a non-empty one unchanged), and empty maps for nil old input and
errors. -/
theorem new_fills_defaults (c : Config) :
    (c.CSRFField = "" → (New c).csrfField = "_csrf")
    ∧ (c.CSRFField ≠ "" → (New c).csrfField = c.CSRFField)
    ∧ (c.OldInput = none → (New c).oldInput = [])
    ∧ (c.Errors = none → (New c).errors = []) := by
  refine ⟨?_, ?_, ?_, ?_⟩
  · intro h
    simp [New, h]
  · intro h
    simp [New, h]
  · intro h
    simp [New, h]
  · intro h
    simp [New, h]

/-- C9 witness: defaults at a config with empty CSRF field and nil maps, and
an explicit CSRF field kept unchanged. -/
theorem new_fills_defaults_witness :
    (New wCfg9).csrfField = "_csrf" ∧ (New wCfg9).oldInput = []
    ∧ (New wCfg9).errors = [] ∧ (New wCfg9b).csrfField = "custom" := by
  have t := new_fills_defaults wCfg9
  have t2 := new_fills_defaults wCfg9b
  exact ⟨t.1 (by decide), t.2.2.1 (by decide), t.2.2.2 (by decide), t2.2.1 (by decide)⟩

/-- C10: `New` stores action, method, CSRF token, model and multipart flag
exactly as given, with no normalization. -/
theorem new_preserves_other_fields (c : Config) :
    (New c).action = c.Action ∧ (New c).method = c.Method
    ∧ (New c).csrfToken = c.CSRFToken ∧ (New c).model = c.Model
    ∧ (New c).isMultipart = c.Multipart :=
  ⟨rfl, rfl, rfl, rfl, rfl⟩

end FormBuilder
